import Mathlib

/-!
Shallow embedding of the `nominal-streaming-labview-ffi` boundary layer
(`src/lib.rs`) and proofs about its handle registries, error channel,
tag parsing, text-buffer marshalling and typed push dispatch.

Modelling conventions:
* C pointers to arrays are `Option (List _)` (`none` = null pointer).
* C string pointers are the inductive `CStr`: null, non-null-but-invalid
  UTF-8 (carrying the decoder's detail text), or a decoded Rust string.
* `f64` values are never inspected by this layer (they are forwarded raw),
  so they are modelled by their 64-bit pattern as a `Nat`.
* The engine (`nominal_streaming` crate) is external: stream construction
  results, bearer-token / resource-identifier validation and flush results
  enter as oracle arguments of the corresponding operation.
* The thread-local error slot of one calling thread is the `lastError`
  field of the state; registries are association lists keyed by handle.
-/

namespace NominalFfi

/-! ### Error codes (`src/lib.rs` lines 16-22) -/

def SUCCESS : Int := 0
def ERROR_GENERIC : Int := -1
def ERROR_INVALID_HANDLE : Int := -2
def ERROR_INVALID_PARAM : Int := -3
def ERROR_RUNTIME : Int := -4
def ERROR_IO : Int := -5
def ERROR_NOT_SUPPORTED : Int := -6

/-! ### C strings and `c_str_to_string` -/

/-- A `*const c_char` argument as seen after the dereference/decoding step:
either the null pointer, a non-null pointer to bytes that are not valid
UTF-8 (carrying the `Utf8Error` display text the source interpolates), or a
pointer whose bytes decode to the given Rust string. -/
inductive CStr where
  | null
  | invalid (e : String)
  | valid (s : String)
deriving DecidableEq

/-- `c_str_to_string` (`src/lib.rs` lines 94-102): null pointers and invalid
UTF-8 are reported as `Err` with the exact message the source formats. -/
def c_str_to_string : CStr → Except String String
  | .null => .error "Null pointer provided"
  | .invalid e => .error ("Invalid UTF-8 string: " ++ e)
  | .valid s => .ok s

/-! ### Rust string splitting and trimming

`str::split(c)` never returns an empty list and keeps empty segments;
`str::trim` strips Unicode `White_Space` characters from both ends. -/

/-- Rust `str::split(c)` on a character list: `[] ↦ [[]]`, and a separator
starts a new (possibly empty) segment. -/
def splitChar (c : Char) : List Char → List (List Char)
  | [] => [[]]
  | x :: xs =>
    match splitChar c xs with
    | [] => [[]]
    | y :: ys => if x = c then [] :: y :: ys else (x :: y) :: ys

/-- Unicode `White_Space` property, as used by Rust's `char::is_whitespace`. -/
def isRustWhitespace (c : Char) : Bool :=
  let n := c.toNat
  (0x9 ≤ n && n ≤ 0xD) || n == 0x20 || n == 0x85 || n == 0xA0 || n == 0x1680 ||
  (0x2000 ≤ n && n ≤ 0x200A) || n == 0x2028 || n == 0x2029 || n == 0x202F ||
  n == 0x205F || n == 0x3000

/-- Rust `str::trim` on a character list. -/
def trimChars (l : List Char) : List Char :=
  ((l.dropWhile isRustWhitespace).reverse.dropWhile isRustWhitespace).reverse

/-- `parse_tags_csv` (`src/lib.rs` lines 105-121): empty input gives no
tags; otherwise split on `,`, keep segments splitting into exactly two
parts at `=`, trimming both parts. -/
def parse_tags_csv (tags_csv : String) : List (String × String) :=
  if tags_csv.isEmpty then []
  else
    (splitChar ',' tags_csv.data).filterMap (fun pair =>
      match splitChar '=' pair with
      | [k, v] => some ((trimChars k).asString, (trimChars v).asString)
      | _ => none)

/-! ### Channel descriptors, writer state, registries -/

/-- The engine's stream object is opaque to this layer; it is identified by
an id. -/
structure NominalDatasetStream where
  id : Nat
deriving DecidableEq

/-- `ChannelDescriptor::new name` has no tags; `with_tags` attaches them. -/
structure ChannelDescriptor where
  name : String
  tags : List (String × String)
deriving DecidableEq

/-- `WriterState` (`src/lib.rs` lines 64-67): the shared stream reference
plus the immutable descriptor. -/
structure WriterState where
  stream : NominalDatasetStream
  descriptor : ChannelDescriptor
deriving DecidableEq

/-- `HashMap::get` on an association list. -/
def lookupA {α : Type} : List (Nat × α) → Nat → Option α
  | [], _ => none
  | (k, v) :: rest, h => if k = h then some v else lookupA rest h

/-- `HashMap::insert` on an association list (allocator-unique keys, so a
plain cons). -/
def insertA {α : Type} (m : List (Nat × α)) (k : Nat) (v : α) : List (Nat × α) :=
  (k, v) :: m

/-- `HashMap::remove` on an association list. -/
def eraseA {α : Type} (m : List (Nat × α)) (k : Nat) : List (Nat × α) :=
  m.filter (fun p => p.1 ≠ k)

/-- The process-global mutable state visible to one calling thread:
the two registries (`STREAMS`, `WRITERS`), the two handle counters
(`NEXT_STREAM_HANDLE`, `NEXT_WRITER_HANDLE`, both starting at 1) and the
calling thread's `LAST_ERROR` slot. -/
structure FfiState where
  streams : List (Nat × NominalDatasetStream)
  writers : List (Nat × WriterState)
  nextStreamHandle : Nat
  nextWriterHandle : Nat
  lastError : Option String
deriving DecidableEq

/-- Process start: empty registries, both counters at 1, no pending error. -/
def initState : FfiState :=
  { streams := [], writers := [], nextStreamHandle := 1, nextWriterHandle := 1,
    lastError := none }

/-- `allocate_stream_handle` (`src/lib.rs` lines 75-80): return the counter,
then increment it. -/
def allocate_stream_handle (σ : FfiState) : Nat × FfiState :=
  (σ.nextStreamHandle, { σ with nextStreamHandle := σ.nextStreamHandle + 1 })

/-- `allocate_writer_handle` (`src/lib.rs` lines 82-87). -/
def allocate_writer_handle (σ : FfiState) : Nat × FfiState :=
  (σ.nextWriterHandle, { σ with nextWriterHandle := σ.nextWriterHandle + 1 })

/-- `set_last_error`. -/
def set_last_error (σ : FfiState) (e : String) : FfiState :=
  { σ with lastError := some e }

/-- `clear_last_error`. -/
def clear_last_error (σ : FfiState) : FfiState :=
  { σ with lastError := none }

/-! ### Core FFI functions -/

/-- An `f64` value is forwarded raw by this layer without ever being
inspected, so it is modelled by its 64-bit pattern. -/
abbrev F64 := Nat

/-- The body of the `RUNTIME.block_on` closure of `nominal_init`
(`src/lib.rs` lines 174-215). `envTokenOk` models whether
`std::env::var("NOMINAL_TOKEN")` succeeds; `bearerErr` / `ridErr` are the
engine's `BearerToken::new` / `ResourceIdentifier::new` outcomes (display
text on error); `builtStream` is the engine object `builder.build()`
produces. -/
def init_build (tokenStr fallbackStr : Option String) (envTokenOk : Bool)
    (bearerErr ridErr : Option String) (builtStream : NominalDatasetStream) :
    Except (String × Int) NominalDatasetStream :=
  let should_stream_to_core := tokenStr.isSome || envTokenOk
  if should_stream_to_core then
    match bearerErr with
    | some e => .error ("Invalid bearer token: " ++ e, ERROR_INVALID_PARAM)
    | none =>
      match ridErr with
      | some e => .error ("Invalid dataset RID: " ++ e, ERROR_INVALID_PARAM)
      | none => .ok builtStream
  else
    match fallbackStr with
    | some _ => .ok builtStream
    | none =>
      .error ("Either token or fallback file path must be provided", ERROR_INVALID_PARAM)

/-- `nominal_init` (`src/lib.rs` lines 129-227). The third component is the
value written through `out_stream_handle` (none when nothing is written). -/
def nominal_init (σ : FfiState) (token dataset_rid fallback_file_path : CStr)
    (outNull : Bool) (envTokenOk : Bool) (bearerErr ridErr : Option String)
    (builtStream : NominalDatasetStream) : FfiState × Int × Option Nat :=
  let σ := clear_last_error σ
  if outNull then
    (set_last_error σ "Output handle pointer is null", ERROR_INVALID_PARAM, none)
  else
    match (match token with
           | .null => Except.ok none
           | t => (c_str_to_string t).map some) with
    | .error e => (set_last_error σ ("Invalid token: " ++ e), ERROR_INVALID_PARAM, none)
    | .ok tokenStr =>
    match c_str_to_string dataset_rid with
    | .error e => (set_last_error σ ("Invalid dataset RID: " ++ e), ERROR_INVALID_PARAM, none)
    | .ok _dataset_rid_str =>
    match (match fallback_file_path with
           | .null => Except.ok none
           | f => (c_str_to_string f).map some) with
    | .error e => (set_last_error σ ("Invalid fallback path: " ++ e), ERROR_INVALID_PARAM, none)
    | .ok fallbackStr =>
    match init_build tokenStr fallbackStr envTokenOk bearerErr ridErr builtStream with
    | .error er => (set_last_error σ er.1, er.2, none)
    | .ok stream =>
      let a := allocate_stream_handle σ
      ({ a.2 with streams := insertA a.2.streams a.1 stream }, SUCCESS, some a.1)

/-- `nominal_create_channel` (`src/lib.rs` lines 231-292). Third component:
the value written through `out_writer_handle`. -/
def nominal_create_channel (σ : FfiState) (stream_handle : Nat)
    (channel_name tags_csv : CStr) (outNull : Bool) : FfiState × Int × Option Nat :=
  let σ := clear_last_error σ
  if outNull then
    (set_last_error σ "Output handle pointer is null", ERROR_INVALID_PARAM, none)
  else
    match lookupA σ.streams stream_handle with
    | none =>
      (set_last_error σ ("Invalid stream handle: " ++ toString stream_handle),
       ERROR_INVALID_HANDLE, none)
    | some stream =>
    match c_str_to_string channel_name with
    | .error e => (set_last_error σ ("Invalid channel name: " ++ e), ERROR_INVALID_PARAM, none)
    | .ok channel_name_str =>
    match (match tags_csv with
           | .null => Except.ok ""
           | t => c_str_to_string t) with
    | .error e => (set_last_error σ ("Invalid tags CSV: " ++ e), ERROR_INVALID_PARAM, none)
    | .ok tags_csv_str =>
      let tags := parse_tags_csv tags_csv_str
      let descriptor : ChannelDescriptor :=
        if tags.isEmpty then ⟨channel_name_str, []⟩ else ⟨channel_name_str, tags⟩
      let a := allocate_writer_handle σ
      ({ a.2 with writers := insertA a.2.writers a.1 ⟨stream, descriptor⟩ },
       SUCCESS, some a.1)

/-- Shared body of `nominal_push_double_batch` / `nominal_push_int64_batch`
/ `nominal_push_bool_batch` (after `clear_last_error`): null check, then
zero-count check, then handle lookup, then push the `count` (timestamp,
converted value) pairs in array order. Returns (code, final error slot,
pushed samples); timestamps stay in raw nanoseconds
(`Duration::from_nanos` is injective). -/
def pushBatch {α β : Type} (conv : α → β) (writers : List (Nat × WriterState))
    (writer_handle : Nat) (timestamps_ns : Option (List Nat))
    (values : Option (List α)) (count : Nat) :
    Int × Option String × List (Nat × β) :=
  if timestamps_ns.isNone || values.isNone then
    (ERROR_INVALID_PARAM, some "Null pointer provided for data arrays", [])
  else if count = 0 then (SUCCESS, none, [])
  else
    match lookupA writers writer_handle with
    | none =>
      (ERROR_INVALID_HANDLE, some ("Invalid writer handle: " ++ toString writer_handle), [])
    | some _state =>
      let timestamps_slice := (timestamps_ns.getD []).take count
      let values_slice := (values.getD []).take count
      (SUCCESS, none, timestamps_slice.zip (values_slice.map conv))

/-- `nominal_push_double_batch` (`src/lib.rs` lines 296-337). -/
def nominal_push_double_batch (σ : FfiState) (writer_handle : Nat)
    (timestamps_ns : Option (List Nat)) (values : Option (List F64)) (count : Nat) :
    FfiState × Int × List (Nat × F64) :=
  let σ := clear_last_error σ
  let r := pushBatch id σ.writers writer_handle timestamps_ns values count
  ({ σ with lastError := r.2.1 }, r.1, r.2.2)

/-- `nominal_push_int64_batch` (`src/lib.rs` lines 521-562). -/
def nominal_push_int64_batch (σ : FfiState) (writer_handle : Nat)
    (timestamps_ns : Option (List Nat)) (values : Option (List Int)) (count : Nat) :
    FfiState × Int × List (Nat × Int) :=
  let σ := clear_last_error σ
  let r := pushBatch id σ.writers writer_handle timestamps_ns values count
  ({ σ with lastError := r.2.1 }, r.1, r.2.2)

/-- `nominal_push_bool_batch` (`src/lib.rs` lines 566-607): `u8` values are
converted with `!= 0`. -/
def nominal_push_bool_batch (σ : FfiState) (writer_handle : Nat)
    (timestamps_ns : Option (List Nat)) (values : Option (List Nat)) (count : Nat) :
    FfiState × Int × List (Nat × Bool) :=
  let σ := clear_last_error σ
  let r := pushBatch (fun v : Nat => v != 0) σ.writers writer_handle timestamps_ns values count
  ({ σ with lastError := r.2.1 }, r.1, r.2.2)

/-- The `for i in 0..count` loop of `nominal_push_string_batch`: decode
element `i`; on failure report the index and stop (keeping what was already
pushed); on success push and continue. -/
def push_string_loop (i : Nat) : List Nat → List CStr → Int × Option String × List (Nat × String)
  | t :: ts, v :: vs =>
    match c_str_to_string v with
    | .error e =>
      (ERROR_INVALID_PARAM, some ("Invalid string at index " ++ toString i ++ ": " ++ e), [])
    | .ok s =>
      let r := push_string_loop (i + 1) ts vs
      (r.1, r.2.1, (t, s) :: r.2.2)
  | _, _ => (SUCCESS, none, [])

/-- `nominal_push_string_batch` (`src/lib.rs` lines 611-661). -/
def nominal_push_string_batch (σ : FfiState) (writer_handle : Nat)
    (timestamps_ns : Option (List Nat)) (values : Option (List CStr)) (count : Nat) :
    FfiState × Int × List (Nat × String) :=
  let σ := clear_last_error σ
  if timestamps_ns.isNone || values.isNone then
    (set_last_error σ "Null pointer provided for data arrays", ERROR_INVALID_PARAM, [])
  else if count = 0 then (σ, SUCCESS, [])
  else
    match lookupA σ.writers writer_handle with
    | none =>
      (set_last_error σ ("Invalid writer handle: " ++ toString writer_handle),
       ERROR_INVALID_HANDLE, [])
    | some _state =>
      let r := push_string_loop 0 ((timestamps_ns.getD []).take count)
        ((values.getD []).take count)
      ({ σ with lastError := r.2.1 }, r.1, r.2.2)

/-- `nominal_close_channel` (`src/lib.rs` lines 341-357). -/
def nominal_close_channel (σ : FfiState) (writer_handle : Nat) : FfiState × Int :=
  let σ := clear_last_error σ
  match lookupA σ.writers writer_handle with
  | none =>
    (set_last_error σ ("Invalid writer handle: " ++ toString writer_handle),
     ERROR_INVALID_HANDLE)
  | some _ => ({ σ with writers := eraseA σ.writers writer_handle }, SUCCESS)

/-- `nominal_shutdown` (`src/lib.rs` lines 361-376). -/
def nominal_shutdown (σ : FfiState) (stream_handle : Nat) : FfiState × Int :=
  let σ := clear_last_error σ
  match lookupA σ.streams stream_handle with
  | none =>
    (set_last_error σ ("Invalid stream handle: " ++ toString stream_handle),
     ERROR_INVALID_HANDLE)
  | some _ => ({ σ with streams := eraseA σ.streams stream_handle }, SUCCESS)

/-- `nominal_flush` (`src/lib.rs` lines 423-446); `flushResult` is the
engine's `stream.flush()` outcome (`none` = Ok, `some e` = Err with text). -/
def nominal_flush (σ : FfiState) (stream_handle : Nat) (flushResult : Option String) :
    FfiState × Int :=
  let σ := clear_last_error σ
  match lookupA σ.streams stream_handle with
  | none =>
    (set_last_error σ ("Invalid stream handle: " ++ toString stream_handle),
     ERROR_INVALID_HANDLE)
  | some _stream =>
    match flushResult with
    | none => (σ, SUCCESS)
    | some e => (set_last_error σ ("Flush failed: " ++ e), ERROR_RUNTIME)

/-- `nominal_flush_channel` (`src/lib.rs` lines 450-475). -/
def nominal_flush_channel (σ : FfiState) (writer_handle : Nat) (flushResult : Option String) :
    FfiState × Int :=
  let σ := clear_last_error σ
  match lookupA σ.writers writer_handle with
  | none =>
    (set_last_error σ ("Invalid writer handle: " ++ toString writer_handle),
     ERROR_INVALID_HANDLE)
  | some _writer =>
    match flushResult with
    | none => (σ, SUCCESS)
    | some e => (set_last_error σ ("Channel flush failed: " ++ e), ERROR_RUNTIME)

/-! ### Text output marshalling -/

/-- UTF-8 encoding of one character (what `str::as_bytes` exposes per char). -/
def utf8Bytes (c : Char) : List Nat :=
  let n := c.toNat
  if n < 0x80 then [n]
  else if n < 0x800 then
    [0xC0 ||| (n >>> 6), 0x80 ||| (n &&& 0x3F)]
  else if n < 0x10000 then
    [0xE0 ||| (n >>> 12), 0x80 ||| ((n >>> 6) &&& 0x3F), 0x80 ||| (n &&& 0x3F)]
  else
    [0xF0 ||| (n >>> 18), 0x80 ||| ((n >>> 12) &&& 0x3F),
     0x80 ||| ((n >>> 6) &&& 0x3F), 0x80 ||| (n &&& 0x3F)]

/-- `str::as_bytes` of a Rust string. -/
def strBytes (s : String) : List Nat :=
  s.data.foldr (fun c acc => utf8Bytes c ++ acc) []

/-- The shared copy pattern of the three text outputs: copy
`min (len bytes) (buffer_size - 1)` bytes, then the null terminator.
Returns the byte prefix of the buffer that got written. -/
def writeCString (bytes : List Nat) (buffer_size : Nat) : List Nat :=
  let copy_len := min bytes.length (buffer_size - 1)
  bytes.take copy_len ++ [0]

/-- Body of `nominal_get_last_error` (`src/lib.rs` lines 380-415) given the
calling thread's slot. It does not clear the slot (only borrows it).
Second component: the bytes written into the buffer. -/
def get_last_error_into (lastError : Option String) (bufferNull : Bool)
    (buffer_size : Nat) : Int × Option (List Nat) :=
  if bufferNull || buffer_size == 0 then (ERROR_INVALID_PARAM, none)
  else
    match lastError with
    | none => (ERROR_GENERIC, some [0])
    | some msg => (SUCCESS, some (writeCString (strBytes msg) buffer_size))

/-- `nominal_get_last_error` as a state transformer (state is untouched). -/
def nominal_get_last_error (σ : FfiState) (bufferNull : Bool) (buffer_size : Nat) :
    FfiState × Int × Option (List Nat) :=
  (σ, get_last_error_into σ.lastError bufferNull buffer_size)

/-- `nominal_get_channel_name` (`src/lib.rs` lines 669-706). -/
def nominal_get_channel_name (σ : FfiState) (writer_handle : Nat)
    (bufferNull : Bool) (buffer_size : Nat) : FfiState × Int × Option (List Nat) :=
  let σ := clear_last_error σ
  if bufferNull || buffer_size == 0 then
    (set_last_error σ "Invalid buffer parameters", ERROR_INVALID_PARAM, none)
  else
    match lookupA σ.writers writer_handle with
    | none =>
      (set_last_error σ ("Invalid writer handle: " ++ toString writer_handle),
       ERROR_INVALID_HANDLE, none)
    | some state =>
      (σ, SUCCESS, some (writeCString (strBytes state.descriptor.name) buffer_size))

/-- `nominal_get_version` (`src/lib.rs` lines 710-730). The text comes from
`env!("CARGO_PKG_VERSION")`; the package manifest is not among the sources,
so the version string is a parameter. The function neither clears nor sets
the error slot. -/
def nominal_get_version (version : String) (bufferNull : Bool) (buffer_size : Nat) :
    Int × Option (List Nat) :=
  if bufferNull || buffer_size == 0 then (ERROR_INVALID_PARAM, none)
  else (SUCCESS, some (writeCString (strBytes version) buffer_size))

/-! ### Diagnostics -/

/-- `nominal_is_stream_valid` (`src/lib.rs` lines 495-502). -/
def nominal_is_stream_valid (σ : FfiState) (stream_handle : Nat) : Int :=
  if (lookupA σ.streams stream_handle).isSome then 1 else 0

/-- `nominal_is_writer_valid` (`src/lib.rs` lines 506-513). -/
def nominal_is_writer_valid (σ : FfiState) (writer_handle : Nat) : Int :=
  if (lookupA σ.writers writer_handle).isSome then 1 else 0

/-- `nominal_get_active_streams` (`src/lib.rs` lines 483-485). -/
def nominal_get_active_streams (σ : FfiState) : Int := σ.streams.length

/-- `nominal_get_active_writers` (`src/lib.rs` lines 489-491). -/
def nominal_get_active_writers (σ : FfiState) : Int := σ.writers.length

/-! ### Boundary operations as a transition system -/

/-- One boundary call with its arguments; external (engine / environment)
outcomes ride along as oracle fields. -/
inductive Op where
  | init (token dataset_rid fallback : CStr) (outNull : Bool) (envTokenOk : Bool)
      (bearerErr ridErr : Option String) (builtStream : NominalDatasetStream)
  | createChannel (stream_handle : Nat) (channel_name tags_csv : CStr) (outNull : Bool)
  | pushDouble (writer_handle : Nat) (timestamps : Option (List Nat))
      (values : Option (List F64)) (count : Nat)
  | pushInt64 (writer_handle : Nat) (timestamps : Option (List Nat))
      (values : Option (List Int)) (count : Nat)
  | pushBool (writer_handle : Nat) (timestamps : Option (List Nat))
      (values : Option (List Nat)) (count : Nat)
  | pushString (writer_handle : Nat) (timestamps : Option (List Nat))
      (values : Option (List CStr)) (count : Nat)
  | closeChannel (writer_handle : Nat)
  | shutdown (stream_handle : Nat)
  | flush (stream_handle : Nat) (flushResult : Option String)
  | flushChannel (writer_handle : Nat) (flushResult : Option String)
  | getLastError (bufferNull : Bool) (buffer_size : Nat)
  | getChannelName (writer_handle : Nat) (bufferNull : Bool) (buffer_size : Nat)
  | getVersion (version : String) (bufferNull : Bool) (buffer_size : Nat)
  | isStreamValid (stream_handle : Nat)
  | isWriterValid (writer_handle : Nat)
  | getActiveStreams
  | getActiveWriters

/-- Effect of one boundary call on the global state, with its return code. -/
def step (σ : FfiState) : Op → FfiState × Int
  | .init t r f o env be re bs =>
    let x := nominal_init σ t r f o env be re bs
    (x.1, x.2.1)
  | .createChannel h cn tc o =>
    let x := nominal_create_channel σ h cn tc o
    (x.1, x.2.1)
  | .pushDouble h ts vs c =>
    let x := nominal_push_double_batch σ h ts vs c
    (x.1, x.2.1)
  | .pushInt64 h ts vs c =>
    let x := nominal_push_int64_batch σ h ts vs c
    (x.1, x.2.1)
  | .pushBool h ts vs c =>
    let x := nominal_push_bool_batch σ h ts vs c
    (x.1, x.2.1)
  | .pushString h ts vs c =>
    let x := nominal_push_string_batch σ h ts vs c
    (x.1, x.2.1)
  | .closeChannel h => nominal_close_channel σ h
  | .shutdown h => nominal_shutdown σ h
  | .flush h fr => nominal_flush σ h fr
  | .flushChannel h fr => nominal_flush_channel σ h fr
  | .getLastError bn bs =>
    let x := nominal_get_last_error σ bn bs
    (x.1, x.2.1)
  | .getChannelName h bn bs =>
    let x := nominal_get_channel_name σ h bn bs
    (x.1, x.2.1)
  | .getVersion v bn bs => (σ, (nominal_get_version v bn bs).1)
  | .isStreamValid h => (σ, nominal_is_stream_valid σ h)
  | .isWriterValid h => (σ, nominal_is_writer_valid σ h)
  | .getActiveStreams => (σ, nominal_get_active_streams σ)
  | .getActiveWriters => (σ, nominal_get_active_writers σ)

/-- State after a sequence of boundary calls from process start. -/
def run (ops : List Op) : FfiState :=
  ops.foldl (fun σ op => (step σ op).1) initState

/-- Handles returned by `n` consecutive `allocate_stream_handle` calls. -/
def streamAllocs : Nat → FfiState → List Nat
  | 0, _ => []
  | n + 1, σ => (allocate_stream_handle σ).1 :: streamAllocs n (allocate_stream_handle σ).2

/-- Handles returned by `n` consecutive `allocate_writer_handle` calls. -/
def writerAllocs : Nat → FfiState → List Nat
  | 0, _ => []
  | n + 1, σ => (allocate_writer_handle σ).1 :: writerAllocs n (allocate_writer_handle σ).2

/-- Run a sequence of boundary calls from an arbitrary state. -/
def runFrom (σ : FfiState) (ops : List Op) : FfiState :=
  ops.foldl (fun s op => (step s op).1) σ

/-- The exported functions that return a status code (everything except the
count/validity probes, which return data). -/
def fallibleOp : Op → Bool
  | .isStreamValid _ => false
  | .isWriterValid _ => false
  | .getActiveStreams => false
  | .getActiveWriters => false
  | _ => true

/-- The two exported functions that do not follow the clear-then-set error
discipline: `nominal_get_version` never touches the slot and
`nominal_get_last_error` only reads it. -/
def diagExempt : Op → Bool
  | .getVersion _ _ _ => true
  | .getLastError _ _ => true
  | _ => false

/-! ### Lemmas: splitting -/

theorem splitChar_ne_nil (c : Char) (l : List Char) : splitChar c l ≠ [] := by
  cases l with
  | nil => simp [splitChar]
  | cons x xs =>
    simp only [splitChar]
    cases hx : splitChar c xs with
    | nil => simp
    | cons y ys => split <;> (try split) <;> simp

theorem splitChar_length (c : Char) (l : List Char) :
    (splitChar c l).length = l.count c + 1 := by
  induction l with
  | nil => simp [splitChar]
  | cons x xs ih =>
    simp only [splitChar]
    cases hx : splitChar c xs with
    | nil => exact absurd hx (splitChar_ne_nil c xs)
    | cons y ys =>
      rw [hx] at ih
      by_cases hxc : x = c
      · simp [hxc, List.count_cons] at ih ⊢; omega
      · simp [hxc, List.count_cons] at ih ⊢; omega

theorem splitChar_count_zero (c : Char) (l : List Char) (h : l.count c = 0) :
    splitChar c l = [l] := by
  induction l with
  | nil => simp [splitChar]
  | cons x xs ih =>
    rw [List.count_cons] at h
    by_cases hx : x = c
    · simp [hx] at h
    · simp only [hx, beq_iff_eq, if_false] at h
      simp only [splitChar]
      rw [ih (by omega)]
      simp [hx]

theorem splitChar_count_one (c : Char) (l : List Char) (h : l.count c = 1) :
    splitChar c l =
      [l.takeWhile (fun x => x != c), (l.dropWhile (fun x => x != c)).drop 1] := by
  induction l with
  | nil => simp at h
  | cons x xs ih =>
    rw [List.count_cons] at h
    by_cases hx : x = c
    · subst hx
      simp only [beq_self_eq_true, if_true] at h
      have hxs : xs.count x = 0 := by omega
      simp only [splitChar]
      rw [splitChar_count_zero _ _ hxs]
      simp
    · simp only [hx, beq_iff_eq, if_false] at h
      have hxs : xs.count c = 1 := by omega
      simp only [splitChar]
      rw [ih hxs]
      simp [hx]

/-- The segment-keeping rule of `parse_tags_csv`, characterized by the
number of `=` characters in the segment. -/
theorem segment_rule (pair : List Char) :
    (match splitChar '=' pair with
     | [k, v] => some ((trimChars k).asString, (trimChars v).asString)
     | _ => none) =
    (if pair.count '=' = 1 then
       some ((trimChars (pair.takeWhile (fun c => c != '='))).asString,
             (trimChars ((pair.dropWhile (fun c => c != '=')).drop 1)).asString)
     else none) := by
  by_cases h : pair.count '=' = 1
  · rw [splitChar_count_one _ _ h]
    simp [h]
  · have hlen := splitChar_length '=' pair
    cases hsp : splitChar '=' pair with
    | nil => exact absurd hsp (splitChar_ne_nil _ _)
    | cons a tl =>
      cases tl with
      | nil => simp [h]
      | cons b tl2 =>
        cases tl2 with
        | nil =>
          rw [hsp] at hlen
          simp at hlen
          omega
        | cons d tl3 => simp [h]

/-! ### Lemmas: buffer marshalling -/

theorem take_min_length {α : Type} (l : List α) (n : Nat) :
    l.take (min l.length n) = l.take n := by
  rcases Nat.le_total l.length n with h | h
  · rw [Nat.min_eq_left h, List.take_length, List.take_of_length_le h]
  · rw [Nat.min_eq_right h]

theorem writeCString_length_le (bytes : List Nat) (bs : Nat) (h : 1 ≤ bs) :
    (writeCString bytes bs).length ≤ bs := by
  simp only [writeCString, List.length_append, List.length_take, List.length_cons,
    List.length_nil]
  omega

theorem writeCString_terminated (bytes : List Nat) (bs : Nat) :
    (writeCString bytes bs).getLast? = some 0 :=
  List.getLast?_concat _

theorem get_last_error_into_pending (msg : String) (bs : Nat) (h0 : ¬ bs = 0) :
    get_last_error_into (some msg) false bs =
      (SUCCESS, some (writeCString (strBytes msg) bs)) := by
  have hbs : (bs == 0) = false := by simpa using h0
  simp [get_last_error_into, hbs]

theorem get_last_error_into_empty (bs : Nat) (h0 : ¬ bs = 0) :
    get_last_error_into none false bs = (ERROR_GENERIC, some [0]) := by
  have hbs : (bs == 0) = false := by simpa using h0
  simp [get_last_error_into, hbs]

theorem get_channel_name_found (σ : FfiState) (w : Nat) (state : WriterState)
    (hw : lookupA σ.writers w = some state) (bs : Nat) (h0 : ¬ bs = 0) :
    nominal_get_channel_name σ w false bs =
      (clear_last_error σ, SUCCESS,
       some (writeCString (strBytes state.descriptor.name) bs)) := by
  have hbs : (bs == 0) = false := by simpa using h0
  have hw2 : lookupA (clear_last_error σ).writers w = some state := hw
  simp only [nominal_get_channel_name, Bool.false_or, hbs, Bool.false_eq_true,
    if_false, hw2]

theorem get_version_ok (version : String) (bs : Nat) (h0 : ¬ bs = 0) :
    nominal_get_version version false bs =
      (SUCCESS, some (writeCString (strBytes version) bs)) := by
  have hbs : (bs == 0) = false := by simpa using h0
  simp [nominal_get_version, hbs]

/-! ### Claim C6: tag parsing -/

/-- C6: tag parsing: the empty string yields zero tag pairs; a comma
segment with exactly one `=` yields one pair with both sides trimmed;
every other segment is silently dropped; accepted pairs appear in input
order (`filterMap` keeps it); plus the claim's concrete examples. -/
theorem claim_C6_tag_parsing :
    parse_tags_csv "" = [] ∧
    parse_tags_csv "a=1,b=2" = [("a", "1"), ("b", "2")] ∧
    parse_tags_csv "a=1,bad,c=3" = [("a", "1"), ("c", "3")] ∧
    ∀ s : String, ¬ s = "" →
      parse_tags_csv s =
        (splitChar ',' s.data).filterMap (fun seg =>
          if seg.count '=' = 1 then
            some ((trimChars (seg.takeWhile (fun c => c != '='))).asString,
                  (trimChars ((seg.dropWhile (fun c => c != '=')).drop 1)).asString)
          else none) := by
  refine ⟨by decide, by decide, by decide, ?_⟩
  intro s hs
  have he : s.isEmpty = false := by
    rw [Bool.eq_false_iff]
    intro hempty
    exact hs ((String.isEmpty_iff s).mp hempty)
  rw [parse_tags_csv, if_neg (by simp [he])]
  simp only [segment_rule]

/-- Witness for the universally quantified part of C6. -/
theorem claim_C6_tag_parsing_witness :
    parse_tags_csv "k = v ,oops" =
      (splitChar ',' ("k = v ,oops").data).filterMap (fun seg =>
        if seg.count '=' = 1 then
          some ((trimChars (seg.takeWhile (fun c => c != '='))).asString,
                (trimChars ((seg.dropWhile (fun c => c != '=')).drop 1)).asString)
        else none) :=
  claim_C6_tag_parsing.2.2.2 "k = v ,oops" (by decide)

/-! ### Claim C7: `nominal_get_last_error` with a valid buffer -/

/-- C7: with a non-null buffer of size at least 1: no pending message
writes the empty terminated string and reports the "no error was pending"
status (the generic bucket of the closed taxonomy); a pending message is
copied up to `buffer_size - 1` bytes plus the terminator, truncating
silently — the call still succeeds whatever the message length. -/
theorem claim_C7_get_last_error (buffer_size : Nat) (hsz : 1 ≤ buffer_size)
    (msg : String) :
    get_last_error_into none false buffer_size = (ERROR_GENERIC, some [0]) ∧
    (get_last_error_into (some msg) false buffer_size).1 = SUCCESS ∧
    (get_last_error_into (some msg) false buffer_size).2 =
      some ((strBytes msg).take (buffer_size - 1) ++ [0]) := by
  have hbs : (buffer_size == 0) = false := by
    simp only [beq_eq_false_iff_ne, ne_eq]
    omega
  refine ⟨?_, ?_, ?_⟩ <;>
    simp [get_last_error_into, hbs, writeCString, take_min_length]

/-- Witness for C7 at a concrete undersized buffer. -/
theorem claim_C7_get_last_error_witness :
    get_last_error_into none false 3 = (ERROR_GENERIC, some [0]) ∧
    (get_last_error_into (some "boom") false 3).1 = SUCCESS ∧
    (get_last_error_into (some "boom") false 3).2 =
      some ((strBytes "boom").take 2 ++ [0]) :=
  claim_C7_get_last_error 3 (by decide) "boom"

/-! ### Claim C1: zero-count pushes -/

/-- C1 counterexample: a zero-count double push with null data pointers
returns the invalid-parameter code, not success — the null-pointer check
runs before the zero-count check. -/
theorem claim_C1_counterexample :
    (nominal_push_double_batch initState 1 none none 0).2.1 = ERROR_INVALID_PARAM ∧
    ¬ ERROR_INVALID_PARAM = SUCCESS := by decide

/-- C1 (amended): for each typed push, a zero-count call returns success
whenever both data pointers are non-null, for every registry content and
handle value; with either pointer null the call returns invalid-parameter
regardless of count and handle. -/
theorem claim_C1_amended (σ : FfiState) (h : Nat) (ts : List Nat)
    (vd : List F64) (vi : List Int) (vb : List Nat) (vs : List CStr) :
    ((nominal_push_double_batch σ h (some ts) (some vd) 0).2.1 = SUCCESS ∧
     (nominal_push_int64_batch σ h (some ts) (some vi) 0).2.1 = SUCCESS ∧
     (nominal_push_bool_batch σ h (some ts) (some vb) 0).2.1 = SUCCESS ∧
     (nominal_push_string_batch σ h (some ts) (some vs) 0).2.1 = SUCCESS) ∧
    (∀ (count : Nat) (ovd : Option (List F64)) (ovi : Option (List Int))
       (ovb : Option (List Nat)) (ovs : Option (List CStr)),
      (nominal_push_double_batch σ h none ovd count).2.1 = ERROR_INVALID_PARAM ∧
      (nominal_push_double_batch σ h (some ts) none count).2.1 = ERROR_INVALID_PARAM ∧
      (nominal_push_int64_batch σ h none ovi count).2.1 = ERROR_INVALID_PARAM ∧
      (nominal_push_int64_batch σ h (some ts) none count).2.1 = ERROR_INVALID_PARAM ∧
      (nominal_push_bool_batch σ h none ovb count).2.1 = ERROR_INVALID_PARAM ∧
      (nominal_push_bool_batch σ h (some ts) none count).2.1 = ERROR_INVALID_PARAM ∧
      (nominal_push_string_batch σ h none ovs count).2.1 = ERROR_INVALID_PARAM ∧
      (nominal_push_string_batch σ h (some ts) none count).2.1 = ERROR_INVALID_PARAM) := by
  constructor
  · refine ⟨?_, ?_, ?_, ?_⟩ <;>
      simp [nominal_push_double_batch, nominal_push_int64_batch,
        nominal_push_bool_batch, nominal_push_string_batch, pushBatch]
  · intro count ovd ovi ovb ovs
    refine ⟨?_, ?_, ?_, ?_, ?_, ?_, ?_, ?_⟩ <;>
      simp [nominal_push_double_batch, nominal_push_int64_batch,
        nominal_push_bool_batch, nominal_push_string_batch, pushBatch]

/-- Witness for C1 (amended) at concrete inputs. -/
theorem claim_C1_amended_witness :
    (nominal_push_double_batch initState 3 (some []) (some []) 0).2.1 = SUCCESS :=
  (claim_C1_amended initState 3 [] [] [] [] []).1.1

/-! ### Claim C2: text outputs and buffer sizes -/

/-- C2 counterexample: with a pending message, `nominal_get_last_error` on
a buffer of size exactly 1 succeeds, writing just the terminator, instead
of rejecting the call as invalid parameters. -/
theorem claim_C2_counterexample :
    (get_last_error_into (some "boom") false 1).1 = SUCCESS ∧
    (get_last_error_into (some "boom") false 1).2 = some [0] ∧
    ¬ SUCCESS = ERROR_INVALID_PARAM := by decide

/-- C2 (amended): the three text outputs null-terminate within the buffer
and truncate silently for every non-null buffer of size at least 1 (size 1
included); the rejected case is a null buffer or size 0. For the channel
name this is under a registered writer handle. -/
theorem claim_C2_amended (slot : Option String) (σ : FfiState) (w : Nat)
    (state : WriterState) (hw : lookupA σ.writers w = some state)
    (version : String) (buffer_size : Nat) (hsz : 1 ≤ buffer_size) :
    ((get_last_error_into slot false buffer_size).1 ≠ ERROR_INVALID_PARAM ∧
     ∃ out, (get_last_error_into slot false buffer_size).2 = some out ∧
       out.length ≤ buffer_size ∧ out.getLast? = some 0) ∧
    ((nominal_get_channel_name σ w false buffer_size).2.1 = SUCCESS ∧
     ∃ out, (nominal_get_channel_name σ w false buffer_size).2.2 = some out ∧
       out.length ≤ buffer_size ∧ out.getLast? = some 0) ∧
    ((nominal_get_version version false buffer_size).1 = SUCCESS ∧
     ∃ out, (nominal_get_version version false buffer_size).2 = some out ∧
       out.length ≤ buffer_size ∧ out.getLast? = some 0) ∧
    (∀ (b : Bool) (n : Nat),
      get_last_error_into slot true n = (ERROR_INVALID_PARAM, none) ∧
      get_last_error_into slot b 0 = (ERROR_INVALID_PARAM, none) ∧
      (nominal_get_channel_name σ w true n).2.1 = ERROR_INVALID_PARAM ∧
      (nominal_get_channel_name σ w b 0).2.1 = ERROR_INVALID_PARAM ∧
      nominal_get_version version true n = (ERROR_INVALID_PARAM, none) ∧
      nominal_get_version version b 0 = (ERROR_INVALID_PARAM, none)) := by
  have h0 : ¬ buffer_size = 0 := by omega
  refine ⟨?_, ?_, ?_, ?_⟩
  · cases slot with
    | none =>
      rw [get_last_error_into_empty _ h0]
      exact ⟨by decide, [0], rfl, by simpa using hsz, rfl⟩
    | some msg =>
      rw [get_last_error_into_pending _ _ h0]
      exact ⟨fun hc => absurd hc ((by decide : ¬ SUCCESS = ERROR_INVALID_PARAM)),
        _, rfl, writeCString_length_le _ _ hsz, writeCString_terminated _ _⟩
  · rw [get_channel_name_found σ w state hw _ h0]
    exact ⟨rfl, _, rfl, writeCString_length_le _ _ hsz, writeCString_terminated _ _⟩
  · rw [get_version_ok version _ h0]
    exact ⟨rfl, _, rfl, writeCString_length_le _ _ hsz, writeCString_terminated _ _⟩
  · intro b n
    cases b <;>
      refine ⟨?_, ?_, ?_, ?_, ?_, ?_⟩ <;>
        simp [get_last_error_into, nominal_get_channel_name, nominal_get_version,
          clear_last_error, set_last_error]

/-- Witness for C2 (amended) at a concrete one-byte buffer. -/
theorem claim_C2_amended_witness :
    ((get_last_error_into (some "x") false 1).1 ≠ ERROR_INVALID_PARAM ∧
     ∃ out, (get_last_error_into (some "x") false 1).2 = some out ∧
       out.length ≤ 1 ∧ out.getLast? = some 0) :=
  (claim_C2_amended (some "x")
    { streams := [], writers := [(7, ⟨⟨0⟩, ⟨"t", []⟩⟩)], nextStreamHandle := 1,
      nextWriterHandle := 8, lastError := none }
    7 ⟨⟨0⟩, ⟨"t", []⟩⟩ rfl "1.0.0" 1 (by decide)).1

/-! ### Claim C8: string batch decode semantics -/

theorem push_string_loop_all_ok (vs : List CStr) :
    ∀ (ts : List Nat) (i : Nat),
      (∀ v ∈ vs, (c_str_to_string v).isOk = true) →
      push_string_loop i ts vs =
        (SUCCESS, none,
         ts.zip (vs.map (fun v => ((c_str_to_string v).toOption.getD "")))) := by
  induction vs with
  | nil => intro ts i _; cases ts <;> simp [push_string_loop]
  | cons v vs ih =>
    intro ts i h
    cases ts with
    | nil => simp [push_string_loop]
    | cons t ts =>
      have hv := h v (List.mem_cons_self _ _)
      cases hd : c_str_to_string v with
      | error e => rw [hd] at hv; simp [Except.isOk, Except.toBool] at hv
      | ok s =>
        simp only [push_string_loop, hd]
        rw [ih ts (i + 1) (fun w hw => h w (List.mem_cons_of_mem _ hw))]
        simp [hd, Except.toOption]

theorem push_string_loop_first_err (j : Nat) :
    ∀ (i : Nat) (ts : List Nat) (vs : List CStr) (v0 : CStr) (e : String),
      (∀ v ∈ vs.take j, (c_str_to_string v).isOk = true) →
      vs[j]? = some v0 → c_str_to_string v0 = .error e → j < ts.length →
      push_string_loop i ts vs =
        (ERROR_INVALID_PARAM,
         some ("Invalid string at index " ++ toString (i + j) ++ ": " ++ e),
         (ts.take j).zip ((vs.take j).map
           (fun v => ((c_str_to_string v).toOption.getD "")))) := by
  induction j with
  | zero =>
    intro i ts vs v0 e hok h0 herr hlen
    cases vs with
    | nil => simp at h0
    | cons v vs =>
      cases ts with
      | nil => simp at hlen
      | cons t ts =>
        simp only [List.getElem?_cons_zero, Option.some_inj] at h0
        subst h0
        simp [push_string_loop, herr]
  | succ k ih =>
    intro i ts vs v0 e hok hj herr hlen
    cases vs with
    | nil => simp at hj
    | cons v vs =>
      cases ts with
      | nil => simp at hlen
      | cons t ts =>
        have hv : (c_str_to_string v).isOk = true := by
          apply hok v
          simp [List.take_succ_cons]
        cases hd : c_str_to_string v with
        | error e2 => rw [hd] at hv; simp [Except.isOk, Except.toBool] at hv
        | ok s =>
          simp only [push_string_loop, hd]
          rw [ih (i + 1) ts vs v0 e
            (fun w hw => hok w (by simp [List.take_succ_cons]; exact .inr hw))
            (by simpa using hj) herr (by simpa using hlen)]
          have hik : i + 1 + k = i + (k + 1) := by omega
          simp [hd, hik, Except.toOption, List.take_succ_cons]

/-- `nominal_push_string_batch` on non-null arrays, positive count and a
registered writer reduces to the decode-and-push loop over the two
`count`-element slices. -/
theorem push_string_batch_found (σ : FfiState) (w : Nat) (state : WriterState)
    (hw : lookupA σ.writers w = some state) (tl : List Nat) (vl : List CStr)
    (count : Nat) (hc : ¬ count = 0) :
    nominal_push_string_batch σ w (some tl) (some vl) count =
      ({ σ with lastError := (push_string_loop 0 (tl.take count) (vl.take count)).2.1 },
       (push_string_loop 0 (tl.take count) (vl.take count)).1,
       (push_string_loop 0 (tl.take count) (vl.take count)).2.2) := by
  have hw2 : lookupA (clear_last_error σ).writers w = some state := hw
  simp only [nominal_push_string_batch, Option.isNone_some, Bool.or_self,
    Bool.false_eq_true, if_false, hc, hw2, hw, Option.getD_some, clear_last_error]

/-- C8: pushing a string batch through a registered writer with non-null
arrays and positive count: if element `i` is the first value pointer that
is null or not valid UTF-8, the call returns invalid-parameter with a
diagnostic naming index `i`, elements `0..i-1` stay pushed (no rollback)
and nothing at or after `i` is pushed; if all `count` elements decode, all
samples are pushed in array order and the call succeeds with no pending
diagnostic. -/
theorem claim_C8_push_string_batch (σ : FfiState) (w : Nat) (state : WriterState)
    (hw : lookupA σ.writers w = some state) (tl : List Nat) (vl : List CStr)
    (count : Nat) (hc : 0 < count) (hct : count ≤ tl.length)
    (_hcv : count ≤ vl.length) :
    ((∀ v ∈ vl.take count, (c_str_to_string v).isOk = true) →
      (nominal_push_string_batch σ w (some tl) (some vl) count).2.1 = SUCCESS ∧
      (nominal_push_string_batch σ w (some tl) (some vl) count).1.lastError = none ∧
      (nominal_push_string_batch σ w (some tl) (some vl) count).2.2 =
        (tl.take count).zip ((vl.take count).map
          (fun v => ((c_str_to_string v).toOption.getD "")))) ∧
    (∀ (i : Nat) (v0 : CStr) (e : String), i < count →
      (∀ v ∈ vl.take i, (c_str_to_string v).isOk = true) →
      vl[i]? = some v0 → c_str_to_string v0 = .error e →
      (nominal_push_string_batch σ w (some tl) (some vl) count).2.1 =
        ERROR_INVALID_PARAM ∧
      (nominal_push_string_batch σ w (some tl) (some vl) count).1.lastError =
        some ("Invalid string at index " ++ toString i ++ ": " ++ e) ∧
      (nominal_push_string_batch σ w (some tl) (some vl) count).2.2 =
        (tl.take i).zip ((vl.take i).map
          (fun v => ((c_str_to_string v).toOption.getD "")))) := by
  have hc0 : ¬ count = 0 := by omega
  rw [push_string_batch_found σ w state hw tl vl count hc0]
  constructor
  · intro hok
    rw [push_string_loop_all_ok (vl.take count) (tl.take count) 0 hok]
    exact ⟨rfl, rfl, rfl⟩
  · intro i v0 e hi hok hv0 herr
    have htk : (vl.take count).take i = vl.take i := by
      rw [List.take_take, Nat.min_eq_left (Nat.le_of_lt hi)]
    have htt : (tl.take count).take i = tl.take i := by
      rw [List.take_take, Nat.min_eq_left (Nat.le_of_lt hi)]
    rw [push_string_loop_first_err i 0 (tl.take count) (vl.take count) v0 e
      (by rw [htk]; exact hok)
      (by rw [List.getElem?_take]; simp [hi, hv0]) herr
      (by simp [List.length_take]; omega)]
    rw [Nat.zero_add, htk, htt]
    exact ⟨rfl, rfl, rfl⟩

/-- Witness for C8 at a concrete failing batch: the second element is a
null pointer, so one sample is pushed, the call fails with the index-1
diagnostic. -/
theorem claim_C8_push_string_batch_witness :
    (nominal_push_string_batch
      { streams := [], writers := [(1, ⟨⟨0⟩, ⟨"t", []⟩⟩)], nextStreamHandle := 1,
        nextWriterHandle := 2, lastError := none }
      1 (some [10, 20, 30]) (some [.valid "a", .null, .valid "c"]) 3).2.1 =
        ERROR_INVALID_PARAM ∧
    (nominal_push_string_batch
      { streams := [], writers := [(1, ⟨⟨0⟩, ⟨"t", []⟩⟩)], nextStreamHandle := 1,
        nextWriterHandle := 2, lastError := none }
      1 (some [10, 20, 30]) (some [.valid "a", .null, .valid "c"]) 3).1.lastError =
        some ("Invalid string at index " ++ toString 1 ++ ": " ++ "Null pointer provided") ∧
    (nominal_push_string_batch
      { streams := [], writers := [(1, ⟨⟨0⟩, ⟨"t", []⟩⟩)], nextStreamHandle := 1,
        nextWriterHandle := 2, lastError := none }
      1 (some [10, 20, 30]) (some [.valid "a", .null, .valid "c"]) 3).2.2 =
        ([10, 20, 30].take 1).zip (([CStr.valid "a", CStr.null, CStr.valid "c"].take 1).map
          (fun v => ((c_str_to_string v).toOption.getD ""))) :=
  (claim_C8_push_string_batch
    { streams := [], writers := [(1, ⟨⟨0⟩, ⟨"t", []⟩⟩)], nextStreamHandle := 1,
      nextWriterHandle := 2, lastError := none }
    1 ⟨⟨0⟩, ⟨"t", []⟩⟩ rfl [10, 20, 30] [.valid "a", .null, .valid "c"] 3
    (by decide) (by decide) (by decide)).2
    1 .null "Null pointer provided" (by decide) (by decide) rfl rfl

/-! ### Lemmas: association-list registries -/

theorem lookupA_insert_self {α : Type} (m : List (Nat × α)) (k : Nat) (v : α) :
    lookupA (insertA m k v) k = some v := by
  simp [lookupA, insertA]

theorem lookupA_insert_ne {α : Type} (m : List (Nat × α)) (k h : Nat) (v : α)
    (hne : ¬ k = h) : lookupA (insertA m k v) h = lookupA m h := by
  simp [lookupA, insertA, hne]

theorem lookupA_erase {α : Type} (m : List (Nat × α)) (k h : Nat) :
    lookupA (eraseA m k) h = if h = k then none else lookupA m h := by
  induction m with
  | nil => by_cases hh : h = k <;> simp [lookupA, eraseA, hh]
  | cons p rest ih =>
    obtain ⟨pk, pv⟩ := p
    by_cases hpk : pk = k
    · subst hpk
      have hdrop : eraseA ((pk, pv) :: rest) pk = eraseA rest pk := by
        simp [eraseA, List.filter_cons]
      rw [hdrop, ih]
      by_cases hh : h = pk
      · simp [hh]
      · have hpk2 : ¬ pk = h := fun he => hh he.symm
        simp [lookupA, hh, hpk2]
    · have hkeep : eraseA ((pk, pv) :: rest) k = (pk, pv) :: eraseA rest k := by
        simp [eraseA, List.filter_cons, hpk]
      rw [hkeep]
      by_cases hph : pk = h
      · subst hph
        simp [lookupA, hpk]
      · simp [lookupA, hph, ih]

theorem lookupA_some_mem {α : Type} (m : List (Nat × α)) (h : Nat) (v : α)
    (hl : lookupA m h = some v) : (h, v) ∈ m := by
  induction m with
  | nil => simp [lookupA] at hl
  | cons p rest ih =>
    obtain ⟨pk, pv⟩ := p
    by_cases hp : pk = h
    · subst hp
      simp only [lookupA, if_true] at hl
      simp only [Option.some_inj] at hl
      subst hl
      exact List.mem_cons_self _ _
    · simp only [lookupA, hp, if_false] at hl
      exact List.mem_cons_of_mem _ (ih hl)

/-! ### Lemmas: per-operation case analysis -/

theorem init_build_error_code (a b : Option String) (c : Bool)
    (d e : Option String) (f : NominalDatasetStream) (er : String × Int)
    (h : init_build a b c d e f = .error er) : er.2 = ERROR_INVALID_PARAM := by
  simp only [init_build] at h
  repeat' split at h
  all_goals first
    | (cases h; rfl)
    | cases h

theorem init_build_ok_val (a b : Option String) (c : Bool)
    (d e : Option String) (f : NominalDatasetStream) (s : NominalDatasetStream)
    (h : init_build a b c d e f = .ok s) : s = f := by
  simp only [init_build] at h
  repeat' split at h
  all_goals first
    | (cases h; rfl)
    | cases h

/-- `nominal_init` either fails touching only the error slot, or allocates
the next stream handle and registers the built stream. -/
theorem nominal_init_cases (σ : FfiState) (t r f : CStr) (o env : Bool)
    (be re : Option String) (bs : NominalDatasetStream) :
    (∃ msg, nominal_init σ t r f o env be re bs =
       ({ σ with lastError := some msg }, ERROR_INVALID_PARAM, none)) ∨
    nominal_init σ t r f o env be re bs =
      ({ σ with
          lastError := none,
          streams := insertA σ.streams σ.nextStreamHandle bs,
          nextStreamHandle := σ.nextStreamHandle + 1 },
       SUCCESS, some σ.nextStreamHandle) := by
  simp only [nominal_init, clear_last_error, set_last_error,
    allocate_stream_handle]
  repeat' split
  all_goals first
    | exact .inl ⟨_, rfl⟩
    | exact .inr rfl
    | (rename_i er heq
       have h2 := init_build_error_code _ _ _ _ _ _ er heq
       exact .inl ⟨er.1, by rw [h2]⟩)
    | (rename_i s heq
       have h2 := init_build_ok_val _ _ _ _ _ _ s heq
       subst h2
       exact .inr rfl)

/-- `nominal_create_channel` either fails touching only the error slot, or
allocates the next writer handle and registers a `WriterState`. -/
theorem nominal_create_channel_cases (σ : FfiState) (sh : Nat)
    (cn tc : CStr) (o : Bool) :
    (∃ msg c, ¬ c = SUCCESS ∧ nominal_create_channel σ sh cn tc o =
       ({ σ with lastError := some msg }, c, none)) ∨
    ∃ ws, nominal_create_channel σ sh cn tc o =
      ({ σ with
          lastError := none,
          writers := insertA σ.writers σ.nextWriterHandle ws,
          nextWriterHandle := σ.nextWriterHandle + 1 },
       SUCCESS, some σ.nextWriterHandle) := by
  simp only [nominal_create_channel, clear_last_error, set_last_error,
    allocate_writer_handle]
  repeat' split
  all_goals first
    | exact .inl ⟨_, _, by decide, rfl⟩
    | exact .inr ⟨_, rfl⟩

/-- The numeric push core sets a diagnostic exactly when it fails. -/
theorem pushBatch_slot {α β : Type} (conv : α → β) (ws : List (Nat × WriterState))
    (h : Nat) (ts : Option (List Nat)) (vs : Option (List α)) (c : Nat) :
    ((pushBatch conv ws h ts vs c).2.1 = none ↔
     (pushBatch conv ws h ts vs c).1 = SUCCESS) := by
  simp only [pushBatch]
  repeat' split
  all_goals simp [SUCCESS, ERROR_INVALID_PARAM, ERROR_INVALID_HANDLE]

/-- The string push loop sets a diagnostic exactly when it fails. -/
theorem push_string_loop_slot (ts : List Nat) (vs : List CStr) :
    ∀ i, ((push_string_loop i ts vs).2.1 = none ↔
          (push_string_loop i ts vs).1 = SUCCESS) := by
  induction ts generalizing vs with
  | nil => intro i; cases vs <;> simp [push_string_loop, SUCCESS]
  | cons t tl ih =>
    intro i
    cases vs with
    | nil => simp [push_string_loop, SUCCESS]
    | cons v vl =>
      simp only [push_string_loop]
      cases hd : c_str_to_string v with
      | error e => simp [SUCCESS, ERROR_INVALID_PARAM]
      | ok s => simpa using ih vl (i + 1)

/-- `nominal_push_string_batch` sets a diagnostic exactly when it fails. -/
theorem push_string_batch_slot (σ : FfiState) (h : Nat)
    (ts : Option (List Nat)) (vs : Option (List CStr)) (c : Nat) :
    ((nominal_push_string_batch σ h ts vs c).1.lastError = none ↔
     (nominal_push_string_batch σ h ts vs c).2.1 = SUCCESS) := by
  simp only [nominal_push_string_batch, clear_last_error, set_last_error]
  repeat' split
  · simp [SUCCESS, ERROR_INVALID_PARAM]
  · simp [SUCCESS]
  · simp [SUCCESS, ERROR_INVALID_HANDLE]
  · exact push_string_loop_slot _ _ 0

theorem nominal_close_channel_absent (σ : FfiState) (h : Nat)
    (ha : lookupA σ.writers h = none) :
    nominal_close_channel σ h =
      ({ σ with lastError := some ("Invalid writer handle: " ++ toString h) },
       ERROR_INVALID_HANDLE) := by
  simp only [nominal_close_channel, clear_last_error, set_last_error, ha]

theorem nominal_close_channel_found (σ : FfiState) (h : Nat) (w : WriterState)
    (hw : lookupA σ.writers h = some w) :
    nominal_close_channel σ h =
      ({ σ with
          lastError := none,
          writers := eraseA σ.writers h }, SUCCESS) := by
  simp only [nominal_close_channel, clear_last_error, set_last_error, hw]

theorem nominal_shutdown_absent (σ : FfiState) (h : Nat)
    (ha : lookupA σ.streams h = none) :
    nominal_shutdown σ h =
      ({ σ with lastError := some ("Invalid stream handle: " ++ toString h) },
       ERROR_INVALID_HANDLE) := by
  simp only [nominal_shutdown, clear_last_error, set_last_error, ha]

theorem nominal_shutdown_found (σ : FfiState) (h : Nat) (s : NominalDatasetStream)
    (hs : lookupA σ.streams h = some s) :
    nominal_shutdown σ h =
      ({ σ with
          lastError := none,
          streams := eraseA σ.streams h }, SUCCESS) := by
  simp only [nominal_shutdown, clear_last_error, set_last_error, hs]

theorem nominal_flush_absent (σ : FfiState) (h : Nat) (fr : Option String)
    (ha : lookupA σ.streams h = none) :
    nominal_flush σ h fr =
      ({ σ with lastError := some ("Invalid stream handle: " ++ toString h) },
       ERROR_INVALID_HANDLE) := by
  simp only [nominal_flush, clear_last_error, set_last_error, ha]

theorem nominal_flush_channel_absent (σ : FfiState) (h : Nat) (fr : Option String)
    (ha : lookupA σ.writers h = none) :
    nominal_flush_channel σ h fr =
      ({ σ with lastError := some ("Invalid writer handle: " ++ toString h) },
       ERROR_INVALID_HANDLE) := by
  simp only [nominal_flush_channel, clear_last_error, set_last_error, ha]

theorem get_channel_name_absent (σ : FfiState) (w : Nat) (bs : Nat)
    (h0 : ¬ bs = 0) (ha : lookupA σ.writers w = none) :
    nominal_get_channel_name σ w false bs =
      ({ σ with lastError := some ("Invalid writer handle: " ++ toString w) },
       ERROR_INVALID_HANDLE, none) := by
  have hbs : (bs == 0) = false := by simpa using h0
  simp only [nominal_get_channel_name, clear_last_error, set_last_error,
    Bool.false_or, hbs, Bool.false_eq_true, if_false, ha]

theorem push_double_absent (σ : FfiState) (h : Nat) (ts : List Nat)
    (vs : List F64) (c : Nat) (hc : ¬ c = 0) (ha : lookupA σ.writers h = none) :
    (nominal_push_double_batch σ h (some ts) (some vs) c).2.1 =
      ERROR_INVALID_HANDLE := by
  simp [nominal_push_double_batch, pushBatch, clear_last_error, hc, ha]

theorem push_int64_absent (σ : FfiState) (h : Nat) (ts : List Nat)
    (vs : List Int) (c : Nat) (hc : ¬ c = 0) (ha : lookupA σ.writers h = none) :
    (nominal_push_int64_batch σ h (some ts) (some vs) c).2.1 =
      ERROR_INVALID_HANDLE := by
  simp [nominal_push_int64_batch, pushBatch, clear_last_error, hc, ha]

theorem push_bool_absent (σ : FfiState) (h : Nat) (ts : List Nat)
    (vs : List Nat) (c : Nat) (hc : ¬ c = 0) (ha : lookupA σ.writers h = none) :
    (nominal_push_bool_batch σ h (some ts) (some vs) c).2.1 =
      ERROR_INVALID_HANDLE := by
  simp [nominal_push_bool_batch, pushBatch, clear_last_error, hc, ha]

theorem push_string_absent (σ : FfiState) (h : Nat) (ts : List Nat)
    (vs : List CStr) (c : Nat) (hc : ¬ c = 0) (ha : lookupA σ.writers h = none) :
    (nominal_push_string_batch σ h (some ts) (some vs) c).2.1 =
      ERROR_INVALID_HANDLE := by
  simp [nominal_push_string_batch, clear_last_error, set_last_error, hc, ha]

theorem create_channel_absent (σ : FfiState) (sh : Nat) (cn tc : CStr)
    (ha : lookupA σ.streams sh = none) :
    nominal_create_channel σ sh cn tc false =
      ({ σ with lastError := some ("Invalid stream handle: " ++ toString sh) },
       ERROR_INVALID_HANDLE, none) := by
  simp only [nominal_create_channel, clear_last_error, set_last_error,
    Bool.false_eq_true, if_false, ha]

/-! ### Claim C10: failed calls do not disturb registries or counters -/

/-- C10: every boundary operation that returns a non-success code leaves
the stream registry, the writer registry and both handle counters exactly
as they were; in particular a failed `nominal_init` or
`nominal_create_channel` allocates no handle and inserts no entry. -/
theorem claim_C10_failure_frame (σ : FfiState) (op : Op)
    (hf : ¬ (step σ op).2 = SUCCESS) :
    (step σ op).1.streams = σ.streams ∧
    (step σ op).1.writers = σ.writers ∧
    (step σ op).1.nextStreamHandle = σ.nextStreamHandle ∧
    (step σ op).1.nextWriterHandle = σ.nextWriterHandle := by
  cases op with
  | init t r f o env be re bs =>
    rcases nominal_init_cases σ t r f o env be re bs with ⟨msg, heq⟩ | heq
    · simp [step, heq]
    · simp [step, heq] at hf
  | createChannel sh cn tc o =>
    rcases nominal_create_channel_cases σ sh cn tc o with ⟨msg, c, hc, heq⟩ | ⟨ws, heq⟩
    · simp [step, heq]
    · simp [step, heq] at hf
  | pushDouble h ts vs c => simp [step, nominal_push_double_batch, clear_last_error]
  | pushInt64 h ts vs c => simp [step, nominal_push_int64_batch, clear_last_error]
  | pushBool h ts vs c => simp [step, nominal_push_bool_batch, clear_last_error]
  | pushString h ts vs c =>
    simp only [step, nominal_push_string_batch, clear_last_error, set_last_error]
    repeat' split
    all_goals simp
  | closeChannel h =>
    cases hl : lookupA σ.writers h with
    | none => simp [step, nominal_close_channel_absent σ h hl]
    | some w => simp [step, nominal_close_channel_found σ h w hl] at hf
  | shutdown h =>
    cases hl : lookupA σ.streams h with
    | none => simp [step, nominal_shutdown_absent σ h hl]
    | some s => simp [step, nominal_shutdown_found σ h s hl] at hf
  | flush h fr =>
    simp only [step, nominal_flush, clear_last_error, set_last_error]
    repeat' split
    all_goals simp
  | flushChannel h fr =>
    simp only [step, nominal_flush_channel, clear_last_error, set_last_error]
    repeat' split
    all_goals simp
  | getLastError bn bs => exact ⟨rfl, rfl, rfl, rfl⟩
  | getChannelName h bn bs =>
    simp only [step, nominal_get_channel_name, clear_last_error, set_last_error]
    repeat' split
    all_goals simp
  | getVersion v bn bs => exact ⟨rfl, rfl, rfl, rfl⟩
  | isStreamValid h => exact ⟨rfl, rfl, rfl, rfl⟩
  | isWriterValid h => exact ⟨rfl, rfl, rfl, rfl⟩
  | getActiveStreams => exact ⟨rfl, rfl, rfl, rfl⟩
  | getActiveWriters => exact ⟨rfl, rfl, rfl, rfl⟩

/-- Witness for C10: a shutdown of an unknown handle fails and changes
nothing. -/
theorem claim_C10_failure_frame_witness :
    (step initState (Op.shutdown 1)).1.streams = initState.streams ∧
    (step initState (Op.shutdown 1)).1.writers = initState.writers ∧
    (step initState (Op.shutdown 1)).1.nextStreamHandle = initState.nextStreamHandle ∧
    (step initState (Op.shutdown 1)).1.nextWriterHandle = initState.nextWriterHandle :=
  claim_C10_failure_frame initState (Op.shutdown 1) (by decide)

/-! ### Step invariants: counter monotonicity, stale-handle absence -/

/-- One step never lowers a counter, and a handle that is both below its
class counter and absent from its registry stays absent. -/
theorem step_frame_facts (σ : FfiState) (op : Op) :
    σ.nextStreamHandle ≤ (step σ op).1.nextStreamHandle ∧
    σ.nextWriterHandle ≤ (step σ op).1.nextWriterHandle ∧
    (∀ h, h < σ.nextStreamHandle → lookupA σ.streams h = none →
      lookupA (step σ op).1.streams h = none) ∧
    (∀ h, h < σ.nextWriterHandle → lookupA σ.writers h = none →
      lookupA (step σ op).1.writers h = none) := by
  cases op with
  | init t r f o env be re bs =>
    rcases nominal_init_cases σ t r f o env be re bs with ⟨msg, heq⟩ | heq
    · simp only [step, heq]
      exact ⟨Nat.le_refl _, Nat.le_refl _, fun h _ ha => ha, fun h _ ha => ha⟩
    · simp only [step, heq]
      refine ⟨Nat.le_succ _, Nat.le_refl _, fun h hb ha => ?_, fun h _ ha => ha⟩
      rw [lookupA_insert_ne σ.streams σ.nextStreamHandle h bs (by omega)]
      exact ha
  | createChannel sh cn tc o =>
    rcases nominal_create_channel_cases σ sh cn tc o with ⟨msg, c, hc, heq⟩ | ⟨ws, heq⟩
    · simp only [step, heq]
      exact ⟨Nat.le_refl _, Nat.le_refl _, fun h _ ha => ha, fun h _ ha => ha⟩
    · simp only [step, heq]
      refine ⟨Nat.le_refl _, Nat.le_succ _, fun h _ ha => ha, fun h hb ha => ?_⟩
      rw [lookupA_insert_ne σ.writers σ.nextWriterHandle h ws (by omega)]
      exact ha
  | pushDouble h ts vs c =>
    exact ⟨Nat.le_refl _, Nat.le_refl _, fun h _ ha => ha, fun h _ ha => ha⟩
  | pushInt64 h ts vs c =>
    exact ⟨Nat.le_refl _, Nat.le_refl _, fun h _ ha => ha, fun h _ ha => ha⟩
  | pushBool h ts vs c =>
    exact ⟨Nat.le_refl _, Nat.le_refl _, fun h _ ha => ha, fun h _ ha => ha⟩
  | pushString h ts vs c =>
    simp only [step, nominal_push_string_batch, clear_last_error, set_last_error]
    repeat' split
    all_goals exact ⟨Nat.le_refl _, Nat.le_refl _, fun h _ ha => ha, fun h _ ha => ha⟩
  | closeChannel h =>
    cases hl : lookupA σ.writers h with
    | none =>
      simp only [step, nominal_close_channel_absent σ h hl]
      exact ⟨Nat.le_refl _, Nat.le_refl _, fun h _ ha => ha, fun h _ ha => ha⟩
    | some w =>
      simp only [step, nominal_close_channel_found σ h w hl]
      refine ⟨Nat.le_refl _, Nat.le_refl _, fun h2 _ ha => ha, fun h2 _ ha => ?_⟩
      rw [lookupA_erase]
      split <;> simp [ha]
  | shutdown h =>
    cases hl : lookupA σ.streams h with
    | none =>
      simp only [step, nominal_shutdown_absent σ h hl]
      exact ⟨Nat.le_refl _, Nat.le_refl _, fun h _ ha => ha, fun h _ ha => ha⟩
    | some s =>
      simp only [step, nominal_shutdown_found σ h s hl]
      refine ⟨Nat.le_refl _, Nat.le_refl _, fun h2 _ ha => ?_, fun h2 _ ha => ha⟩
      rw [lookupA_erase]
      split <;> simp [ha]
  | flush h fr =>
    simp only [step, nominal_flush, clear_last_error, set_last_error]
    repeat' split
    all_goals exact ⟨Nat.le_refl _, Nat.le_refl _, fun h _ ha => ha, fun h _ ha => ha⟩
  | flushChannel h fr =>
    simp only [step, nominal_flush_channel, clear_last_error, set_last_error]
    repeat' split
    all_goals exact ⟨Nat.le_refl _, Nat.le_refl _, fun h _ ha => ha, fun h _ ha => ha⟩
  | getLastError bn bs =>
    exact ⟨Nat.le_refl _, Nat.le_refl _, fun h _ ha => ha, fun h _ ha => ha⟩
  | getChannelName h bn bs =>
    simp only [step, nominal_get_channel_name, clear_last_error, set_last_error]
    repeat' split
    all_goals exact ⟨Nat.le_refl _, Nat.le_refl _, fun h _ ha => ha, fun h _ ha => ha⟩
  | getVersion v bn bs =>
    exact ⟨Nat.le_refl _, Nat.le_refl _, fun h _ ha => ha, fun h _ ha => ha⟩
  | isStreamValid h =>
    exact ⟨Nat.le_refl _, Nat.le_refl _, fun h _ ha => ha, fun h _ ha => ha⟩
  | isWriterValid h =>
    exact ⟨Nat.le_refl _, Nat.le_refl _, fun h _ ha => ha, fun h _ ha => ha⟩
  | getActiveStreams =>
    exact ⟨Nat.le_refl _, Nat.le_refl _, fun h _ ha => ha, fun h _ ha => ha⟩
  | getActiveWriters =>
    exact ⟨Nat.le_refl _, Nat.le_refl _, fun h _ ha => ha, fun h _ ha => ha⟩

theorem run_eq_runFrom (ops : List Op) : run ops = runFrom initState ops := rfl

theorem runFrom_append (σ : FfiState) (l1 l2 : List Op) :
    runFrom σ (l1 ++ l2) = runFrom (runFrom σ l1) l2 :=
  List.foldl_append _ _ _ _

theorem runFrom_cons (σ : FfiState) (op : Op) (ops : List Op) :
    runFrom σ (op :: ops) = runFrom (step σ op).1 ops := rfl

/-- `step_frame_facts` lifted along a whole call sequence. -/
theorem runFrom_frame_facts (ops : List Op) : ∀ σ : FfiState,
    σ.nextStreamHandle ≤ (runFrom σ ops).nextStreamHandle ∧
    σ.nextWriterHandle ≤ (runFrom σ ops).nextWriterHandle ∧
    (∀ h, h < σ.nextStreamHandle → lookupA σ.streams h = none →
      lookupA (runFrom σ ops).streams h = none) ∧
    (∀ h, h < σ.nextWriterHandle → lookupA σ.writers h = none →
      lookupA (runFrom σ ops).writers h = none) := by
  induction ops with
  | nil =>
    intro σ
    exact ⟨Nat.le_refl _, Nat.le_refl _, fun _ _ ha => ha, fun _ _ ha => ha⟩
  | cons op ops ih =>
    intro σ
    have h1 := step_frame_facts σ op
    have h2 := ih (step σ op).1
    rw [runFrom_cons]
    exact ⟨Nat.le_trans h1.1 h2.1, Nat.le_trans h1.2.1 h2.2.1,
      fun h hb ha =>
        h2.2.2.1 h (Nat.lt_of_lt_of_le hb h1.1) (h1.2.2.1 h hb ha),
      fun h hb ha =>
        h2.2.2.2 h (Nat.lt_of_lt_of_le hb h1.2.1) (h1.2.2.2 h hb ha)⟩

/-- One step preserves "every registered handle is below its counter". -/
theorem step_bounded (σ : FfiState) (op : Op)
    (hs : ∀ p ∈ σ.streams, p.1 < σ.nextStreamHandle)
    (hw : ∀ p ∈ σ.writers, p.1 < σ.nextWriterHandle) :
    (∀ p ∈ (step σ op).1.streams, p.1 < (step σ op).1.nextStreamHandle) ∧
    (∀ p ∈ (step σ op).1.writers, p.1 < (step σ op).1.nextWriterHandle) := by
  cases op with
  | init t r f o env be re bs =>
    rcases nominal_init_cases σ t r f o env be re bs with ⟨msg, heq⟩ | heq
    · simp only [step, heq]
      exact ⟨fun p hp => hs p hp, fun p hp => hw p hp⟩
    · simp only [step, heq, insertA]
      refine ⟨fun p hp => ?_, fun p hp => Nat.lt_of_lt_of_le (hw p hp) (Nat.le_refl _)⟩
      rcases List.mem_cons.mp hp with h | h
      · subst h; exact Nat.lt_succ_self _
      · exact Nat.lt_succ_of_lt (hs p h)
  | createChannel sh cn tc o =>
    rcases nominal_create_channel_cases σ sh cn tc o with ⟨msg, c, hc, heq⟩ | ⟨ws, heq⟩
    · simp only [step, heq]
      exact ⟨fun p hp => hs p hp, fun p hp => hw p hp⟩
    · simp only [step, heq, insertA]
      refine ⟨fun p hp => Nat.lt_of_lt_of_le (hs p hp) (Nat.le_refl _), fun p hp => ?_⟩
      rcases List.mem_cons.mp hp with h | h
      · subst h; exact Nat.lt_succ_self _
      · exact Nat.lt_succ_of_lt (hw p h)
  | pushDouble h ts vs c => exact ⟨fun p hp => hs p hp, fun p hp => hw p hp⟩
  | pushInt64 h ts vs c => exact ⟨fun p hp => hs p hp, fun p hp => hw p hp⟩
  | pushBool h ts vs c => exact ⟨fun p hp => hs p hp, fun p hp => hw p hp⟩
  | pushString h ts vs c =>
    simp only [step, nominal_push_string_batch, clear_last_error, set_last_error]
    repeat' split
    all_goals exact ⟨fun p hp => hs p hp, fun p hp => hw p hp⟩
  | closeChannel h =>
    cases hl : lookupA σ.writers h with
    | none =>
      simp only [step, nominal_close_channel_absent σ h hl]
      exact ⟨fun p hp => hs p hp, fun p hp => hw p hp⟩
    | some w =>
      simp only [step, nominal_close_channel_found σ h w hl, eraseA]
      exact ⟨fun p hp => hs p hp, fun p hp => hw p (List.mem_of_mem_filter hp)⟩
  | shutdown h =>
    cases hl : lookupA σ.streams h with
    | none =>
      simp only [step, nominal_shutdown_absent σ h hl]
      exact ⟨fun p hp => hs p hp, fun p hp => hw p hp⟩
    | some s =>
      simp only [step, nominal_shutdown_found σ h s hl, eraseA]
      exact ⟨fun p hp => hs p (List.mem_of_mem_filter hp), fun p hp => hw p hp⟩
  | flush h fr =>
    simp only [step, nominal_flush, clear_last_error, set_last_error]
    repeat' split
    all_goals exact ⟨fun p hp => hs p hp, fun p hp => hw p hp⟩
  | flushChannel h fr =>
    simp only [step, nominal_flush_channel, clear_last_error, set_last_error]
    repeat' split
    all_goals exact ⟨fun p hp => hs p hp, fun p hp => hw p hp⟩
  | getLastError bn bs => exact ⟨fun p hp => hs p hp, fun p hp => hw p hp⟩
  | getChannelName h bn bs =>
    simp only [step, nominal_get_channel_name, clear_last_error, set_last_error]
    repeat' split
    all_goals exact ⟨fun p hp => hs p hp, fun p hp => hw p hp⟩
  | getVersion v bn bs => exact ⟨fun p hp => hs p hp, fun p hp => hw p hp⟩
  | isStreamValid h => exact ⟨fun p hp => hs p hp, fun p hp => hw p hp⟩
  | isWriterValid h => exact ⟨fun p hp => hs p hp, fun p hp => hw p hp⟩
  | getActiveStreams => exact ⟨fun p hp => hs p hp, fun p hp => hw p hp⟩
  | getActiveWriters => exact ⟨fun p hp => hs p hp, fun p hp => hw p hp⟩

theorem runFrom_bounded (ops : List Op) : ∀ σ : FfiState,
    (∀ p ∈ σ.streams, p.1 < σ.nextStreamHandle) →
    (∀ p ∈ σ.writers, p.1 < σ.nextWriterHandle) →
    (∀ p ∈ (runFrom σ ops).streams, p.1 < (runFrom σ ops).nextStreamHandle) ∧
    (∀ p ∈ (runFrom σ ops).writers, p.1 < (runFrom σ ops).nextWriterHandle) := by
  induction ops with
  | nil => intro σ hs hw; exact ⟨hs, hw⟩
  | cons op ops ih =>
    intro σ hs hw
    have h1 := step_bounded σ op hs hw
    rw [runFrom_cons]
    exact ih (step σ op).1 h1.1 h1.2

theorem run_bounded (ops : List Op) :
    (∀ p ∈ (run ops).streams, p.1 < (run ops).nextStreamHandle) ∧
    (∀ p ∈ (run ops).writers, p.1 < (run ops).nextWriterHandle) := by
  rw [run_eq_runFrom]
  exact runFrom_bounded ops initState (by simp [initState]) (by simp [initState])

theorem run_append_cons (pre : List Op) (op : Op) (post : List Op) :
    run (pre ++ op :: post) = runFrom (step (run pre) op).1 post := by
  rw [run_eq_runFrom, runFrom_append, runFrom_cons, ← run_eq_runFrom]

/-! ### Claim C3: the clear-then-set error discipline -/

/-- C3 counterexample: `nominal_get_version` is fallible yet neither
clears nor sets the diagnostic: called with a null buffer on a thread
whose slot is empty, it fails with invalid-parameter while the error slot
stays empty — so after this fallible failing call no message is pending. -/
theorem claim_C3_counterexample :
    fallibleOp (Op.getVersion "1.0.0" true 8) = true ∧
    ¬ (step initState (Op.getVersion "1.0.0" true 8)).2 = SUCCESS ∧
    (step initState (Op.getVersion "1.0.0" true 8)).1.lastError = none := by
  refine ⟨rfl, by decide, rfl⟩

/-- C3 (amended): every fallible exported operation except
`nominal_get_version` (which never touches the slot) and
`nominal_get_last_error` (which only reads it) clears the calling thread's
pending diagnostic at entry — its whole outcome is independent of the
incoming slot — and leaves a message pending if and only if it failed. -/
theorem claim_C3_amended (σ : FfiState) (op : Op)
    (hf : fallibleOp op = true) (he : diagExempt op = false) :
    (¬ (step σ op).1.lastError = none ↔ ¬ (step σ op).2 = SUCCESS) ∧
    (∀ e, step { σ with lastError := e } op = step σ op) := by
  constructor
  · cases op with
    | init t r f o env be re bs =>
      rcases nominal_init_cases σ t r f o env be re bs with ⟨msg, heq⟩ | heq <;>
        simp [step, heq, SUCCESS, ERROR_INVALID_PARAM]
    | createChannel sh cn tc o =>
      rcases nominal_create_channel_cases σ sh cn tc o with ⟨msg, c, hc, heq⟩ | ⟨ws, heq⟩
      · simp only [SUCCESS] at hc
        simp [step, heq, hc, SUCCESS]
      · simp [step, heq, SUCCESS]
    | pushDouble h ts vs c => exact not_congr (pushBatch_slot id σ.writers h ts vs c)
    | pushInt64 h ts vs c => exact not_congr (pushBatch_slot id σ.writers h ts vs c)
    | pushBool h ts vs c =>
      exact not_congr (pushBatch_slot (fun v : Nat => v != 0) σ.writers h ts vs c)
    | pushString h ts vs c => exact not_congr (push_string_batch_slot σ h ts vs c)
    | closeChannel h =>
      cases hl : lookupA σ.writers h with
      | none => simp [step, nominal_close_channel_absent σ h hl, SUCCESS,
          ERROR_INVALID_HANDLE]
      | some w => simp [step, nominal_close_channel_found σ h w hl]
    | shutdown h =>
      cases hl : lookupA σ.streams h with
      | none => simp [step, nominal_shutdown_absent σ h hl, SUCCESS,
          ERROR_INVALID_HANDLE]
      | some s => simp [step, nominal_shutdown_found σ h s hl]
    | flush h fr =>
      cases hl : lookupA σ.streams h with
      | none => simp [step, nominal_flush_absent σ h fr hl, SUCCESS,
          ERROR_INVALID_HANDLE]
      | some s =>
        cases fr with
        | none => simp [step, nominal_flush, clear_last_error, hl]
        | some e => simp [step, nominal_flush, clear_last_error, set_last_error,
            hl, SUCCESS, ERROR_RUNTIME]
    | flushChannel h fr =>
      cases hl : lookupA σ.writers h with
      | none => simp [step, nominal_flush_channel_absent σ h fr hl, SUCCESS,
          ERROR_INVALID_HANDLE]
      | some w =>
        cases fr with
        | none => simp [step, nominal_flush_channel, clear_last_error, hl]
        | some e => simp [step, nominal_flush_channel, clear_last_error,
            set_last_error, hl, SUCCESS, ERROR_RUNTIME]
    | getLastError bn bs => simp [diagExempt] at he
    | getChannelName h bn bs =>
      simp only [step, nominal_get_channel_name, clear_last_error, set_last_error]
      repeat' split
      all_goals simp [SUCCESS, ERROR_INVALID_PARAM, ERROR_INVALID_HANDLE]
    | getVersion v bn bs => simp [diagExempt] at he
    | isStreamValid h => simp [fallibleOp] at hf
    | isWriterValid h => simp [fallibleOp] at hf
    | getActiveStreams => simp [fallibleOp] at hf
    | getActiveWriters => simp [fallibleOp] at hf
  · intro e
    cases op <;> first
      | rfl
      | exact Bool.noConfusion hf
      | exact Bool.noConfusion he

/-- Witness for C3 (amended) at a close of an unknown writer handle. -/
theorem claim_C3_amended_witness :
    (¬ (step initState (Op.closeChannel 5)).1.lastError = none ↔
     ¬ (step initState (Op.closeChannel 5)).2 = SUCCESS) :=
  (claim_C3_amended initState (Op.closeChannel 5) (by decide) (by decide)).1

/-! ### Claim C4: monotone, never-reused handle allocation -/

theorem streamAllocs_eq_range' (n : Nat) : ∀ σ : FfiState,
    streamAllocs n σ = List.range' σ.nextStreamHandle n := by
  induction n with
  | zero => intro σ; rfl
  | succ k ih =>
    intro σ
    rw [List.range'_succ]
    simp only [streamAllocs, allocate_stream_handle]
    rw [ih]

theorem writerAllocs_eq_range' (n : Nat) : ∀ σ : FfiState,
    writerAllocs n σ = List.range' σ.nextWriterHandle n := by
  induction n with
  | zero => intro σ; rfl
  | succ k ih =>
    intro σ
    rw [List.range'_succ]
    simp only [writerAllocs, allocate_writer_handle]
    rw [ih]

/-- C4: each handle class independently allocates 1, 2, 3, ...: from
process start, `n` allocator calls return exactly `[1, ..., n]` — strictly
increasing (hence each return exceeds every previous one and all are
pairwise distinct) with first value 1 — and at any reachable state the
allocator never again returns a value below the class counter, so a
removed (hence previously issued) handle value is never issued again. -/
theorem claim_C4_allocator :
    (∀ n, streamAllocs n initState = List.range' 1 n) ∧
    (∀ n, writerAllocs n initState = List.range' 1 n) ∧
    (∀ n, (streamAllocs n initState).Pairwise (· < ·)) ∧
    (∀ n, (writerAllocs n initState).Pairwise (· < ·)) ∧
    (∀ n, ¬ n = 0 → (streamAllocs n initState).head? = some 1) ∧
    (∀ n, ¬ n = 0 → (writerAllocs n initState).head? = some 1) ∧
    (∀ pre post h, h < (run pre).nextStreamHandle →
      ¬ (allocate_stream_handle (run (pre ++ post))).1 = h) ∧
    (∀ pre post h, h < (run pre).nextWriterHandle →
      ¬ (allocate_writer_handle (run (pre ++ post))).1 = h) := by
  refine ⟨fun n => streamAllocs_eq_range' n initState,
    fun n => writerAllocs_eq_range' n initState, ?_, ?_, ?_, ?_, ?_, ?_⟩
  · intro n
    rw [streamAllocs_eq_range']
    exact List.pairwise_lt_range' _ _
  · intro n
    rw [writerAllocs_eq_range']
    exact List.pairwise_lt_range' _ _
  · intro n hn
    rw [streamAllocs_eq_range', List.head?_range']
    simp [hn, initState]
  · intro n hn
    rw [writerAllocs_eq_range', List.head?_range']
    simp [hn, initState]
  · intro pre post h hb heq
    have e1 : run (pre ++ post) = runFrom (run pre) post := by
      rw [run_eq_runFrom, runFrom_append, ← run_eq_runFrom]
    have hmono := (runFrom_frame_facts post (run pre)).1
    rw [e1] at heq
    have h2 : (runFrom (run pre) post).nextStreamHandle = h := heq
    omega
  · intro pre post h hb heq
    have e1 : run (pre ++ post) = runFrom (run pre) post := by
      rw [run_eq_runFrom, runFrom_append, ← run_eq_runFrom]
    have hmono := (runFrom_frame_facts post (run pre)).2.1
    rw [e1] at heq
    have h2 : (runFrom (run pre) post).nextWriterHandle = h := heq
    omega

/-- Witness for C4: after one successful stream construction, handle
value 1 is never allocated again. -/
theorem claim_C4_allocator_witness :
    ¬ (allocate_stream_handle
        (run ([Op.init .null (.valid "rid") (.valid "file") false false none none ⟨0⟩]
          ++ []))).1 = 1 :=
  claim_C4_allocator.2.2.2.2.2.2.1
    [Op.init .null (.valid "rid") (.valid "file") false false none none ⟨0⟩] [] 1
    (by decide)

/-! ### Claim C9: shutdown removes only the stream registry entry -/

/-- C9: shutting down a registered stream handle succeeds and removes
exactly that entry from the stream registry: the writer registry, both
counters and every other stream entry are untouched; every registered
writer — in particular one bound to that stream — keeps its state
(including its shared stream reference), is still reported valid, and
subsequent pushes through it still succeed. -/
theorem claim_C9_shutdown_frame (σ : FfiState) (h : Nat)
    (s : NominalDatasetStream) (hs : lookupA σ.streams h = some s) :
    (nominal_shutdown σ h).2 = SUCCESS ∧
    (nominal_shutdown σ h).1.writers = σ.writers ∧
    (nominal_shutdown σ h).1.nextStreamHandle = σ.nextStreamHandle ∧
    (nominal_shutdown σ h).1.nextWriterHandle = σ.nextWriterHandle ∧
    lookupA (nominal_shutdown σ h).1.streams h = none ∧
    (∀ h2, ¬ h2 = h →
      lookupA (nominal_shutdown σ h).1.streams h2 = lookupA σ.streams h2) ∧
    (∀ w ws, lookupA σ.writers w = some ws →
      lookupA (nominal_shutdown σ h).1.writers w = some ws ∧
      nominal_is_writer_valid (nominal_shutdown σ h).1 w = 1 ∧
      (∀ ts vd c, (nominal_push_double_batch (nominal_shutdown σ h).1 w
        (some ts) (some vd) c).2.1 = SUCCESS) ∧
      (∀ ts vi c, (nominal_push_int64_batch (nominal_shutdown σ h).1 w
        (some ts) (some vi) c).2.1 = SUCCESS) ∧
      (∀ ts vb c, (nominal_push_bool_batch (nominal_shutdown σ h).1 w
        (some ts) (some vb) c).2.1 = SUCCESS)) := by
  rw [nominal_shutdown_found σ h s hs]
  refine ⟨rfl, rfl, rfl, rfl, ?_, ?_, ?_⟩
  · show lookupA (eraseA σ.streams h) h = none
    rw [lookupA_erase]
    simp
  · intro h2 hne
    show lookupA (eraseA σ.streams h) h2 = lookupA σ.streams h2
    rw [lookupA_erase]
    simp [hne]
  · intro w ws hww
    refine ⟨hww, ?_, ?_, ?_, ?_⟩
    · simp [nominal_is_writer_valid, hww]
    · intro ts vd c
      by_cases hc : c = 0 <;>
        simp [nominal_push_double_batch, pushBatch, clear_last_error, hc, hww]
    · intro ts vi c
      by_cases hc : c = 0 <;>
        simp [nominal_push_int64_batch, pushBatch, clear_last_error, hc, hww]
    · intro ts vb c
      by_cases hc : c = 0 <;>
        simp [nominal_push_bool_batch, pushBatch, clear_last_error, hc, hww]

/-- Witness for C9 at a one-stream, one-writer state. -/
theorem claim_C9_shutdown_frame_witness :
    (nominal_shutdown
      { streams := [(1, ⟨5⟩)],
        writers := [(1, ⟨⟨5⟩, ⟨"temp", [("unit", "C")]⟩⟩)],
        nextStreamHandle := 2, nextWriterHandle := 2, lastError := none } 1).2 =
      SUCCESS ∧
    lookupA (nominal_shutdown
      { streams := [(1, ⟨5⟩)],
        writers := [(1, ⟨⟨5⟩, ⟨"temp", [("unit", "C")]⟩⟩)],
        nextStreamHandle := 2, nextWriterHandle := 2, lastError := none } 1).1.streams
      1 = none :=
  ⟨(claim_C9_shutdown_frame
      { streams := [(1, ⟨5⟩)],
        writers := [(1, ⟨⟨5⟩, ⟨"temp", [("unit", "C")]⟩⟩)],
        nextStreamHandle := 2, nextWriterHandle := 2, lastError := none }
      1 ⟨5⟩ rfl).1,
   (claim_C9_shutdown_frame
      { streams := [(1, ⟨5⟩)],
        writers := [(1, ⟨⟨5⟩, ⟨"temp", [("unit", "C")]⟩⟩)],
        nextStreamHandle := 2, nextWriterHandle := 2, lastError := none }
      1 ⟨5⟩ rfl).2.2.2.2.1⟩

/-! ### Claim C5: stale handles are rejected -/

/-- C5 counterexample: after writer handle 1 is removed by
`nominal_close_channel`, a zero-count push referencing that stale handle
returns success (the zero-count early return runs before the handle
lookup), not the invalid-handle code the claim requires of every push. -/
theorem claim_C5_counterexample :
    (step (run [Op.init .null (.valid "rid") (.valid "file") false false none none ⟨0⟩,
                Op.createChannel 1 (.valid "temp") .null false])
          (Op.closeChannel 1)).2 = SUCCESS ∧
    (step (run [Op.init .null (.valid "rid") (.valid "file") false false none none ⟨0⟩,
                Op.createChannel 1 (.valid "temp") .null false,
                Op.closeChannel 1])
          (Op.pushDouble 1 (some [5]) (some [7]) 0)).2 = SUCCESS ∧
    ¬ SUCCESS = ERROR_INVALID_HANDLE := by
  refine ⟨by decide, by decide, by decide⟩

/-- C5 (amended): a handle removed by `nominal_shutdown` (stream class) or
`nominal_close_channel` (writer class) never resolves again: after any
further call sequence its registry still has no entry for it, every
subsequent operation that consults the handle — shutdown, flush,
create-channel with a usable out pointer, close, channel flush, pushes
with non-null pointers and nonzero count, get-channel-name with a usable
buffer — returns the invalid-handle code, and the validity probes
return 0. (A push with a null pointer or a zero count returns its
parameter-determined result — invalid-parameter resp. success — without
consulting any object, which is where the original claim fails.) -/
theorem claim_C5_stale_handle (pre post : List Op) (h : Nat) :
    ((step (run pre) (Op.shutdown h)).2 = SUCCESS →
      lookupA (run (pre ++ Op.shutdown h :: post)).streams h = none ∧
      (step (run (pre ++ Op.shutdown h :: post)) (Op.shutdown h)).2 =
        ERROR_INVALID_HANDLE ∧
      (∀ fr, (step (run (pre ++ Op.shutdown h :: post)) (Op.flush h fr)).2 =
        ERROR_INVALID_HANDLE) ∧
      (∀ cn tc, (step (run (pre ++ Op.shutdown h :: post))
        (Op.createChannel h cn tc false)).2 = ERROR_INVALID_HANDLE) ∧
      nominal_is_stream_valid (run (pre ++ Op.shutdown h :: post)) h = 0) ∧
    ((step (run pre) (Op.closeChannel h)).2 = SUCCESS →
      lookupA (run (pre ++ Op.closeChannel h :: post)).writers h = none ∧
      (step (run (pre ++ Op.closeChannel h :: post)) (Op.closeChannel h)).2 =
        ERROR_INVALID_HANDLE ∧
      (∀ fr, (step (run (pre ++ Op.closeChannel h :: post))
        (Op.flushChannel h fr)).2 = ERROR_INVALID_HANDLE) ∧
      (∀ ts vd c, ¬ c = 0 → (step (run (pre ++ Op.closeChannel h :: post))
        (Op.pushDouble h (some ts) (some vd) c)).2 = ERROR_INVALID_HANDLE) ∧
      (∀ ts vi c, ¬ c = 0 → (step (run (pre ++ Op.closeChannel h :: post))
        (Op.pushInt64 h (some ts) (some vi) c)).2 = ERROR_INVALID_HANDLE) ∧
      (∀ ts vb c, ¬ c = 0 → (step (run (pre ++ Op.closeChannel h :: post))
        (Op.pushBool h (some ts) (some vb) c)).2 = ERROR_INVALID_HANDLE) ∧
      (∀ ts vs c, ¬ c = 0 → (step (run (pre ++ Op.closeChannel h :: post))
        (Op.pushString h (some ts) (some vs) c)).2 = ERROR_INVALID_HANDLE) ∧
      (∀ bs, ¬ bs = 0 → (step (run (pre ++ Op.closeChannel h :: post))
        (Op.getChannelName h false bs)).2 = ERROR_INVALID_HANDLE) ∧
      nominal_is_writer_valid (run (pre ++ Op.closeChannel h :: post)) h = 0) := by
  constructor
  · intro hsucc
    rw [run_append_cons]
    cases hl : lookupA (run pre).streams h with
    | none =>
      exfalso
      have : (step (run pre) (Op.shutdown h)).2 = ERROR_INVALID_HANDLE := by
        simp [step, nominal_shutdown_absent (run pre) h hl]
      rw [hsucc] at this
      exact absurd this (by decide)
    | some s =>
      have hb : h < (run pre).nextStreamHandle :=
        (run_bounded pre).1 (h, s) (lookupA_some_mem _ _ _ hl)
      have hstate : (step (run pre) (Op.shutdown h)).1 =
          { run pre with
              lastError := none,
              streams := eraseA (run pre).streams h } := by
        simp [step, nominal_shutdown_found (run pre) h s hl]
      have ha1 : lookupA ((step (run pre) (Op.shutdown h)).1).streams h = none := by
        rw [hstate]
        show lookupA (eraseA (run pre).streams h) h = none
        rw [lookupA_erase]
        simp
      have hb1 : h < ((step (run pre) (Op.shutdown h)).1).nextStreamHandle := by
        rw [hstate]
        exact hb
      have hper := runFrom_frame_facts post (step (run pre) (Op.shutdown h)).1
      have ha2 : lookupA (runFrom (nominal_shutdown (run pre) h).1 post).streams
          h = none := hper.2.2.1 h hb1 ha1
      refine ⟨?_, ?_, ?_, ?_, ?_⟩
      · exact ha2
      · simp [step, nominal_shutdown_absent _ h ha2]
      · intro fr
        simp [step, nominal_flush_absent _ h fr ha2]
      · intro cn tc
        simp [step, create_channel_absent _ h cn tc ha2]
      · simp only [nominal_is_stream_valid]
        rw [show lookupA (runFrom (step (run pre) (Op.shutdown h)).1 post).streams h =
          none from ha2]
        simp
  · intro hsucc
    rw [run_append_cons]
    cases hl : lookupA (run pre).writers h with
    | none =>
      exfalso
      have : (step (run pre) (Op.closeChannel h)).2 = ERROR_INVALID_HANDLE := by
        simp [step, nominal_close_channel_absent (run pre) h hl]
      rw [hsucc] at this
      exact absurd this (by decide)
    | some w =>
      have hb : h < (run pre).nextWriterHandle :=
        (run_bounded pre).2 (h, w) (lookupA_some_mem _ _ _ hl)
      have hstate : (step (run pre) (Op.closeChannel h)).1 =
          { run pre with
              lastError := none,
              writers := eraseA (run pre).writers h } := by
        simp [step, nominal_close_channel_found (run pre) h w hl]
      have ha1 : lookupA ((step (run pre) (Op.closeChannel h)).1).writers h = none := by
        rw [hstate]
        show lookupA (eraseA (run pre).writers h) h = none
        rw [lookupA_erase]
        simp
      have hb1 : h < ((step (run pre) (Op.closeChannel h)).1).nextWriterHandle := by
        rw [hstate]
        exact hb
      have hper := runFrom_frame_facts post (step (run pre) (Op.closeChannel h)).1
      have ha2 : lookupA (runFrom (nominal_close_channel (run pre) h).1 post).writers
          h = none := hper.2.2.2 h hb1 ha1
      refine ⟨?_, ?_, ?_, ?_, ?_, ?_, ?_, ?_, ?_⟩
      · exact ha2
      · simp [step, nominal_close_channel_absent _ h ha2]
      · intro fr
        simp [step, nominal_flush_channel_absent _ h fr ha2]
      · intro ts vd c hc
        have := push_double_absent _ h ts vd c hc ha2
        simpa [step] using this
      · intro ts vi c hc
        have := push_int64_absent _ h ts vi c hc ha2
        simpa [step] using this
      · intro ts vb c hc
        have := push_bool_absent _ h ts vb c hc ha2
        simpa [step] using this
      · intro ts vs c hc
        have := push_string_absent _ h ts vs c hc ha2
        simpa [step] using this
      · intro bs h0
        simp [step, get_channel_name_absent _ h bs h0 ha2]
      · simp only [nominal_is_writer_valid]
        rw [show lookupA (runFrom (step (run pre) (Op.closeChannel h)).1 post).writers h =
          none from ha2]
        simp

/-- Witness for C5 (amended): construct a stream, shut it down, and the
handle no longer resolves. -/
theorem claim_C5_stale_handle_witness :
    lookupA (run ([Op.init .null (.valid "rid") (.valid "file") false false none none ⟨0⟩]
      ++ Op.shutdown 1 :: [])).streams 1 = none ∧
    (step (run ([Op.init .null (.valid "rid") (.valid "file") false false none none ⟨0⟩]
      ++ Op.shutdown 1 :: [])) (Op.shutdown 1)).2 = ERROR_INVALID_HANDLE :=
  ⟨((claim_C5_stale_handle
      [Op.init .null (.valid "rid") (.valid "file") false false none none ⟨0⟩] [] 1).1
      (by decide)).1,
   ((claim_C5_stale_handle
      [Op.init .null (.valid "rid") (.valid "file") false false none none ⟨0⟩] [] 1).1
      (by decide)).2.1⟩

end NominalFfi
